import Mathlib

/-!
# Verification of the checkin-automation polling-and-deduplication pipeline

Shallow embedding of the core of `martinsson/checkin-automation`:

* the `RequestMemory` ledger (`src/adapters/sqlite_memory.py` backed by the
  `requests` and `drafts` tables of `_SCHEMA`),
* the processing pipeline (`src/pipeline.py`, `Pipeline.process_message` and
  `Pipeline._handle_cleaner_response`),
* the daemon poll cycle (`src/daemon.py`, `poll_once` and `_get_reservation`).

Conventions of the embedding:

* Python `async` methods are pure state-passing functions; a Python exception
  that the source can raise (sqlite `IntegrityError` on a UNIQUE violation,
  network errors from the gateway ports) is an `Except.error`; places where the
  source catches exceptions (`try`/`except` in `poll_once`) are the places
  where an `Except.error` is absorbed.
* Float-valued `confidence` fields and human-readable log/`details` strings
  are omitted: no control flow of the embedded code depends on them.
* Timestamps are integers (`Int`); `datetime.now` ordering is irrelevant to
  the properties proved here except for thread-cutoff comparisons.
* The seen-message operations `mark_message_seen` / `has_message_been_seen`
  are referenced by `pipeline.py` and by the repository's contract tests but
  no implementation of them exists in the source tree; they are modelled from
  the spec (marked below).
-/

namespace CheckinAutomation

/-- Intent values of `ClassificationResult.intent`
(`src/domain/intent.py`: `Literal["early_checkin", "late_checkout", "other"]`). -/
inductive Intent
  | early_checkin
  | late_checkout
  | other
deriving DecidableEq, Repr

/-- Draft steps (`step` column of the `drafts` table; values written by
`pipeline.py`: `"followup"`, `"acknowledgment"`, `"cleaner_query"`,
`"guest_reply"`). -/
inductive Step
  | followup
  | acknowledgment
  | cleaner_query
  | guest_reply
deriving DecidableEq, Repr

/-- Embeds `PipelineResult.action` (`src/pipeline.py`). -/
inductive Action
  | ignored
  | already_processed
  | followup_drafted
  | drafts_created
  | reply_drafted
deriving DecidableEq, Repr

/-- Embeds `PipelineResult` (`src/pipeline.py`); the `details` log string is omitted. -/
structure PipelineResult where
  action : Action
  requestId : String := ""
deriving DecidableEq, Repr

/-- Embeds `ClassificationResult` (`src/domain/intent.py`); `confidence` omitted. -/
structure ClassificationResult where
  intent : Intent
  extractedTime : Option String
  needsFollowup : Bool
  followupQuestion : Option String
deriving DecidableEq, Repr

/-- Embeds `ConversationContext` (`src/domain/intent.py`). -/
structure ConversationContext where
  reservationId : Nat
  guestName : String
  propertyName : String
  defaultCheckinTime : String
  defaultCheckoutTime : String
  arrivalDate : String
  departureDate : String
  previousMessages : List String := []
deriving DecidableEq, Repr

/-- Embeds `CleanerQuery` (`src/communication/ports.py`). -/
structure CleanerQuery where
  requestId : String
  cleanerName : String
  guestName : String
  propertyName : String
  requestType : Intent
  originalTime : String
  requestedTime : String
  date : String
  message : String
deriving DecidableEq, Repr

/-- Embeds `CleanerResponse` (`src/communication/ports.py`); `received_at` omitted. -/
structure CleanerResponse where
  requestId : String
  rawText : String
deriving DecidableEq, Repr

/-- Embeds `ParsedResponse` (`src/domain/response.py`); `confidence` omitted. -/
structure ParsedResponse where
  answer : String
  conditions : Option String
  proposedTime : Option String
deriving DecidableEq, Repr

/-- Embeds `ComposedReply` (`src/domain/response.py`); `confidence` omitted. -/
structure ComposedReply where
  body : String
deriving DecidableEq, Repr

/-- One row of the `requests` table
(`src/adapters/sqlite_memory.py`, `_SCHEMA`); `created_at` is represented by
list position (rows are only ever appended). -/
structure RequestRow where
  reservationId : Nat
  intent : Intent
  status : String
  requestId : String
  guestMessage : String
  guestName : String
  propertyName : String
  originalTime : String
  requestedTime : String
  relevantDate : String
deriving DecidableEq, Repr

/-- One row of the `drafts` table (`src/adapters/sqlite_memory.py`, `_SCHEMA`);
review columns (`actual_message_sent`, `owner_comment`, `reviewed_at`) and
`created_at` are omitted — no claim below touches the review workflow. -/
structure DraftRow where
  draftId : Nat
  requestId : String
  reservationId : Nat
  intent : Intent
  step : Step
  draftBody : String
  verdict : String
deriving DecidableEq, Repr

/-- The ledger state behind `RequestMemory`: the `requests` and `drafts`
tables of `_SCHEMA` plus the seen-message marker set.

The `seen` component is modelled from the spec (see `markMessageSeen`).
`nextDraftId` models sqlite's `AUTOINCREMENT` row id for `drafts`
(first id is 1). -/
structure MemState where
  seen : List (Nat × Nat) := []
  requests : List RequestRow := []
  drafts : List DraftRow := []
  nextDraftId : Nat := 1
deriving DecidableEq, Repr

/-- A fresh ledger (`SqliteRequestMemory.__init__` running `_SCHEMA` on an
empty database). -/
def emptyMem : MemState := {}

/-- Modelled from the spec: `hasMessageBeenSeen(message_id) -> bool` (§4.4).
No implementation exists in the source tree; `pipeline.py` and the repo's
contract tests reference it. True iff `message_id` was marked seen. -/
def hasMessageBeenSeen (s : MemState) (messageId : Nat) : Bool :=
  s.seen.any (fun p => p.1 == messageId)

/-- Modelled from the spec: `markMessageSeen(message_id, reservation_id)`
(§4.4): "idempotent; calling it twice with the same id must not error or
create duplicate state" — an insert-if-absent, write-once marker (§3,
`SeenMessage`). No implementation exists in the source tree. -/
def markMessageSeen (s : MemState) (messageId reservationId : Nat) : MemState :=
  if s.seen.any (fun p => p.1 == messageId) then s
  else { s with seen := s.seen ++ [(messageId, reservationId)] }

/-- Embeds `SqliteRequestMemory.has_been_processed`: `SELECT 1 FROM requests WHERE
reservation_id = ? AND intent = ?` is non-empty. -/
def hasBeenProcessed (s : MemState) (reservationId : Nat) (intent : Intent) : Bool :=
  s.requests.any (fun q => q.reservationId == reservationId && q.intent == intent)

/-- Embeds `SqliteRequestMemory.save_request`: `INSERT INTO requests ...`.
The only uniqueness the schema declares is `request_id TEXT NOT NULL UNIQUE`,
so the insert raises `IntegrityError` iff `request_id` is already present;
there is no constraint on `(reservation_id, intent)`. The `status` column
defaults to `'pending_acknowledgment'`. -/
def saveRequest (s : MemState) (reservationId : Nat) (intent : Intent)
    (requestId guestMessage guestName propertyName originalTime requestedTime
      relevantDate : String) : Except String MemState :=
  if s.requests.any (fun q => q.requestId == requestId) then
    .error "UNIQUE constraint failed: requests.request_id"
  else
    .ok { s with
      requests := s.requests ++ [{
        reservationId := reservationId
        intent := intent
        status := "pending_acknowledgment"
        requestId := requestId
        guestMessage := guestMessage
        guestName := guestName
        propertyName := propertyName
        originalTime := originalTime
        requestedTime := requestedTime
        relevantDate := relevantDate }] }

/-- Embeds `SqliteRequestMemory.update_status`: `UPDATE requests SET status = ?
WHERE request_id = ?`. -/
def updateStatus (s : MemState) (requestId status : String) : MemState :=
  { s with
    requests := s.requests.map (fun q =>
      if q.requestId == requestId then { q with status := status } else q) }

/-- Embeds `SqliteRequestMemory.get_request`: `SELECT * FROM requests WHERE
request_id = ?` (first row or `None`). -/
def getRequest (s : MemState) (requestId : String) : Option RequestRow :=
  s.requests.find? (fun q => q.requestId == requestId)

/-- Embeds `SqliteRequestMemory.save_draft`: `INSERT INTO drafts ...` with
`verdict` defaulting to `'pending'`; returns `cur.lastrowid`. -/
def saveDraft (s : MemState) (requestId : String) (reservationId : Nat)
    (intent : Intent) (step : Step) (draftBody : String) : MemState × Nat :=
  ({ s with
      drafts := s.drafts ++ [{
        draftId := s.nextDraftId
        requestId := requestId
        reservationId := reservationId
        intent := intent
        step := step
        draftBody := draftBody
        verdict := "pending" }]
      nextDraftId := s.nextDraftId + 1 },
   s.nextDraftId)

/-- Embeds `SqliteRequestMemory.get_pending_drafts`: rows with `verdict = 'pending'`,
in creation order. -/
def getPendingDrafts (s : MemState) : List DraftRow :=
  s.drafts.filter (fun d => d.verdict == "pending")

/-! ## Pipeline (`src/pipeline.py`) -/

/-- The external ports of `PipelineConfig`: the intent classifier, the
acknowledgment composer, the response parser and the reply composer
(`src/domain/intent.py`, `src/domain/response.py`), plus `cleaner_name`.
All are black boxes to the pipeline; they appear as plain functions. -/
structure Ports where
  classify : String → ConversationContext → ClassificationResult
  composeAcknowledgment : ClassificationResult → ConversationContext → ComposedReply
  parse : String → CleanerQuery → ParsedResponse
  compose : ParsedResponse → CleanerQuery → ComposedReply
  cleanerName : String := "Marie"

/-- Python truthiness of `result.extracted_time or "?"`
(`pipeline.py`): `None` and `""` both yield `"?"`. -/
def orQuestionMark : Option String → String
  | none => "?"
  | some t => if t == "" then "?" else t

/-- Python truthiness of an `Optional[str]` in a boolean context
(`result.needs_followup and result.followup_question`): truthy iff present
and non-empty. -/
def optStrTruthy : Option String → Bool
  | none => false
  | some t => t != ""

/-- Outcome of one `Pipeline.process_message` call.  `outcome` is `.error`
when the Python call would raise (the sqlite UNIQUE violation of
`save_request`); `state` is the ledger after the writes committed before the
return or raise.  `classifierInvoked` and `seenConsulted` record whether
`classifier.classify` / `memory.has_message_been_seen` were called;
`uuidConsumed` records whether `uuid.uuid4()` was reached (used by the daemon
embedding to thread the fresh-id supply). -/
structure PMOut where
  state : MemState
  outcome : Except String PipelineResult
  classifierInvoked : Bool
  seenConsulted : Bool
  uuidConsumed : Bool
deriving Repr

/-- Embeds `Pipeline.process_message` (`src/pipeline.py`, lines 69–190).

`requestId` stands for the `str(uuid.uuid4())` generated at line 109; it is
passed in so freshness can be stated as a hypothesis where a theorem needs
the insert to succeed.

Control flow mirrors the source exactly:
1. `if message_id and has_message_been_seen(message_id): already_processed`
   (short-circuit: the store is consulted only when `message_id` is truthy);
2. `classify`;
3. `if message_id: mark_message_seen(...)`;
4. `if intent == "other": ignored`;
5. `if has_been_processed(reservation_id, intent): already_processed`;
6. `save_request(...)` (can raise);
7. `if needs_followup and followup_question:` a single `followup` draft,
   return `followup_drafted`;
8. otherwise an `acknowledgment` draft, a `cleaner_query` draft whose body is
   `query.message` (the guest message), `update_status(request_id,
   "pending_acknowledgment")`, return `drafts_created`. -/
def processMessage (P : Ports) (s : MemState) (reservationId : Nat)
    (message : String) (ctx : ConversationContext) (messageId : Nat)
    (requestId : String) : PMOut :=
  let seenConsulted := messageId != 0
  if messageId != 0 && hasMessageBeenSeen s messageId then
    { state := s
      outcome := .ok { action := .already_processed }
      classifierInvoked := false
      seenConsulted := seenConsulted
      uuidConsumed := false }
  else
    let result := P.classify message ctx
    let s1 := if messageId != 0 then markMessageSeen s messageId reservationId else s
    if result.intent = .other then
      { state := s1
        outcome := .ok { action := .ignored }
        classifierInvoked := true
        seenConsulted := seenConsulted
        uuidConsumed := false }
    else if hasBeenProcessed s1 reservationId result.intent then
      { state := s1
        outcome := .ok { action := .already_processed }
        classifierInvoked := true
        seenConsulted := seenConsulted
        uuidConsumed := false }
    else
      let originalTime :=
        if result.intent = .early_checkin then ctx.defaultCheckinTime
        else ctx.defaultCheckoutTime
      let relevantDate :=
        if result.intent = .early_checkin then ctx.arrivalDate
        else ctx.departureDate
      match saveRequest s1 reservationId result.intent requestId message
          ctx.guestName ctx.propertyName originalTime
          (orQuestionMark result.extractedTime) relevantDate with
      | .error e =>
          { state := s1
            outcome := .error e
            classifierInvoked := true
            seenConsulted := seenConsulted
            uuidConsumed := true }
      | .ok s2 =>
        if result.needsFollowup && optStrTruthy result.followupQuestion then
          let q := result.followupQuestion.getD ""
          let s3 := (saveDraft s2 requestId reservationId result.intent .followup q).1
          { state := s3
            outcome := .ok { action := .followup_drafted, requestId := requestId }
            classifierInvoked := true
            seenConsulted := seenConsulted
            uuidConsumed := true }
        else
          let ack := P.composeAcknowledgment result ctx
          let s3 := (saveDraft s2 requestId reservationId result.intent
            .acknowledgment ack.body).1
          let query : CleanerQuery := {
            requestId := requestId
            cleanerName := P.cleanerName
            guestName := ctx.guestName
            propertyName := ctx.propertyName
            requestType := result.intent
            originalTime :=
              if result.intent = .early_checkin then ctx.defaultCheckinTime
              else ctx.defaultCheckoutTime
            requestedTime := orQuestionMark result.extractedTime
            date :=
              if result.intent = .early_checkin then ctx.arrivalDate
              else ctx.departureDate
            message := message }
          let s4 := (saveDraft s3 requestId reservationId result.intent
            .cleaner_query query.message).1
          let s5 := updateStatus s4 requestId "pending_acknowledgment"
          { state := s5
            outcome := .ok { action := .drafts_created, requestId := requestId }
            classifierInvoked := true
            seenConsulted := seenConsulted
            uuidConsumed := true }

/-- Embeds `Pipeline._handle_cleaner_response` (`src/pipeline.py`, lines 201–248).
Looks up the request; on a miss every stub-query field falls back to a
default (`""` / `"early_checkin"` / `"(unknown)"` / reservation `0`), the
guest-reply draft is still saved, and the status update is skipped. -/
def handleCleanerResponse (P : Ports) (s : MemState) (response : CleanerResponse) :
    MemState × PipelineResult :=
  let req := getRequest s response.requestId
  let stubQuery : CleanerQuery := {
    requestId := response.requestId
    cleanerName := P.cleanerName
    guestName := match req with | some q => q.guestName | none => ""
    propertyName := match req with | some q => q.propertyName | none => ""
    requestType := match req with | some q => q.intent | none => .early_checkin
    originalTime := match req with | some q => q.originalTime | none => ""
    requestedTime := match req with | some q => q.requestedTime | none => ""
    date := match req with | some q => q.relevantDate | none => ""
    message := match req with | some q => q.guestMessage | none => "(unknown)" }
  let parsed := P.parse response.rawText stubQuery
  let reply := P.compose parsed stubQuery
  let reservationId := match req with | some q => q.reservationId | none => 0
  let intent := match req with | some q => q.intent | none => Intent.early_checkin
  let s1 := (saveDraft s response.requestId reservationId intent
    .guest_reply reply.body).1
  let s2 :=
    if req.isSome then updateStatus s1 response.requestId "pending_reply" else s1
  (s2, { action := .reply_drafted, requestId := response.requestId })

/-- Embeds `Pipeline.process_cleaner_responses` applied to an already-polled list of
responses (the polling itself lives in the cleaner port). -/
def processCleanerResponses (P : Ports) (s : MemState)
    (responses : List CleanerResponse) : MemState × List PipelineResult :=
  responses.foldl
    (fun acc response =>
      let r := handleCleanerResponse P acc.1 response
      (r.1, acc.2 ++ [r.2]))
    (s, [])

/-! ## Daemon poll cycle (`src/daemon.py`) -/

/-- Embeds `GuestMessage` (`src/adapters/ports.py`); `subject` kept, timestamps
not present in the source dataclass. `type` 1 = guest, 2 = host. -/
structure GuestMessage where
  messageId : Nat
  subject : String
  body : String
  msgType : Nat := 1
deriving DecidableEq, Repr

/-- Embeds `Thread` (`src/adapters/ports.py`); `latest_message_at` as an integer
timestamp. -/
structure ThreadInfo where
  reservationId : Nat
  guestName : String
  apartmentName : String
  latestMessageAt : Int
deriving DecidableEq, Repr

/-- Embeds `ThreadPage` (`src/adapters/ports.py`). -/
structure ThreadPage where
  threads : List ThreadInfo
  hasMore : Bool
deriving DecidableEq, Repr

/-- Embeds `ReservationInfo` (`src/adapters/ports.py`). -/
structure ReservationInfo where
  reservationId : Nat
  guestName : String
  apartmentName : String
  arrival : String
  departure : String
deriving DecidableEq, Repr

/-- The `SmoobuGateway` and cleaner-channel calls `poll_once` makes.  Each
call may raise (network), hence `Except`; `get_reservation` may additionally
return `None` for an unknown reservation. -/
structure Gateway where
  getThreads : Nat → Except String ThreadPage
  getReservation : Nat → Except String (Option ReservationInfo)
  getMessages : Nat → Except String (List GuestMessage)
  pollResponses : Except String (List CleanerResponse)

/-- The mutable state one poll cycle threads through: the ledger, the
reservation cache (`ReservationCache` port, an id → info dictionary) and the
supply counter standing in for `uuid.uuid4()` freshness. -/
structure DaemonState where
  mem : MemState
  cache : List (Nat × ReservationInfo) := []
  uuidCounter : Nat := 0
deriving Repr

/-- Embeds `ReservationCache.get` (dictionary lookup,
`src/adapters/simulator_reservation_cache.py`). -/
def cacheGet (cache : List (Nat × ReservationInfo)) (reservationId : Nat) :
    Option ReservationInfo :=
  (cache.find? (fun p => p.1 == reservationId)).map (fun p => p.2)

/-- Embeds `ReservationCache.store` (dictionary assignment). -/
def cacheStore (cache : List (Nat × ReservationInfo)) (reservationId : Nat)
    (info : ReservationInfo) : List (Nat × ReservationInfo) :=
  if cache.any (fun p => p.1 == reservationId) then
    cache.map (fun p => if p.1 == reservationId then (reservationId, info) else p)
  else cache ++ [(reservationId, info)]

/-- The `uuid.uuid4()` stand-in: the n-th fresh request id. -/
def uuidOf (n : Nat) : String := "uuid-" ++ toString n

/-- Collect reservation ids from one thread page (`daemon.py`, lines 58–61):
first occurrence wins, only threads at or after the cutoff. -/
def collectThreads (cutoff : Int) (acc : List Nat) : List ThreadInfo → List Nat
  | [] => acc
  | t :: ts =>
      collectThreads cutoff
        (if decide (t.latestMessageAt ≥ cutoff) && !(acc.contains t.reservationId)
         then acc ++ [t.reservationId] else acc) ts

/-- The thread-scan loop of `poll_once` (`daemon.py`, lines 39–65), counting
`get_threads` calls.  The Python loop is `while True`; `fuel` makes the
translation total and any theorem supplies enough of it.  Returns the
collected reservation ids and the number of pages fetched.  Stop conditions,
in source order: a failed fetch, an empty page, a page whose threads are all
older than the cutoff, `has_more` false. -/
def scanThreads (getThreads : Nat → Except String ThreadPage) (cutoff : Int) :
    Nat → Nat → List Nat → Nat → List Nat × Nat
  | 0, _, acc, fetched => (acc, fetched)
  | fuel + 1, page, acc, fetched =>
    match getThreads page with
    | .error _ => (acc, fetched + 1)
    | .ok tp =>
      if tp.threads.isEmpty then (acc, fetched + 1)
      else if tp.threads.all (fun t => decide (t.latestMessageAt < cutoff)) then
        (acc, fetched + 1)
      else
        let acc1 := collectThreads cutoff acc tp.threads
        if !tp.hasMore then (acc1, fetched + 1)
        else scanThreads getThreads cutoff fuel (page + 1) acc1 (fetched + 1)

/-- Embeds `_get_reservation` (`daemon.py`, lines 129–141) together with the
loop body's `if info is None: continue` check: cache lookup; on a miss a
gateway fetch, which may raise, followed by a cache store.  A missing
reservation is reported as an error exactly like a raise, because both leave
the loop body without processing (a warning-and-continue versus a caught
exception).  Returns the metadata and the possibly-updated cache. -/
def getReservationCached (G : Gateway) (cache : List (Nat × ReservationInfo))
    (reservationId : Nat) :
    Except String (ReservationInfo × List (Nat × ReservationInfo)) :=
  match cacheGet cache reservationId with
  | some info => .ok (info, cache)
  | none =>
    match G.getReservation reservationId with
    | .error e => .error e
    | .ok none => .error "metadata missing"
    | .ok (some info) => .ok (info, cacheStore cache reservationId info)

/-- Embeds the per-reservation loop body of `poll_once` (`daemon.py`, lines
72–118): metadata fetch via `getReservationCached`, message fetch, filter to
guest messages, pipeline call on the latest one.  The body is wrapped in the
source's two `try`/`except` blocks, so a raised fetch (`Except.error`) or a
raising pipeline call leaves the state as committed so far and the loop
continues.  The guest-message filter `m.type == 1 and m.body.strip()` is
modelled as type 1 and the body holding at least one non-whitespace
character (Python truthiness of the stripped string). -/
def processOneReservation (G : Gateway) (P : Ports) (st : DaemonState)
    (reservationId : Nat) : DaemonState :=
  match getReservationCached G st.cache reservationId with
  | .error _ => st
  | .ok (info, cache1) =>
    match G.getMessages reservationId with
    | .error _ => { st with cache := cache1 }
    | .ok messages =>
      let guestMessages := messages.filter
        (fun m => m.msgType == 1 && m.body.data.any (fun c => !c.isWhitespace))
      match guestMessages.getLast? with
      | none => { st with cache := cache1 }
      | some latest =>
        let previous := guestMessages.dropLast.map (fun m => m.body)
        let ctx : ConversationContext := {
          reservationId := reservationId
          guestName := info.guestName
          propertyName := info.apartmentName
          arrivalDate := info.arrival
          departureDate := info.departure
          defaultCheckinTime := "17:00"
          defaultCheckoutTime := "11:00"
          previousMessages := previous }
        let out := processMessage P st.mem reservationId latest.body ctx
          latest.messageId (uuidOf st.uuidCounter)
        { mem := out.state
          cache := cache1
          uuidCounter :=
            if out.uuidConsumed then st.uuidCounter + 1 else st.uuidCounter }

/-- The per-reservation loop of `poll_once` (`daemon.py`, lines 72–118). -/
def processAllReservations (G : Gateway) (P : Ports) (st : DaemonState)
    (reservationIds : List Nat) : DaemonState :=
  reservationIds.foldl (processOneReservation G P) st

/-- The cleaner-response poll at the end of `poll_once` (lines 120–126):
`pipeline.process_cleaner_responses()` inside a `try`/`except`. -/
def cleanerStep (G : Gateway) (P : Ports) (st : DaemonState) : DaemonState :=
  match G.pollResponses with
  | .error _ => st
  | .ok responses =>
    { st with mem := (processCleanerResponses P st.mem responses).1 }

/-- Embeds `poll_once` (`daemon.py`): thread scan, per-reservation processing,
cleaner-response poll. -/
def pollOnce (G : Gateway) (P : Ports) (st : DaemonState) (cutoff : Int)
    (fuel : Nat) : DaemonState :=
  let reservationIds := (scanThreads G.getThreads cutoff fuel 1 [] 0).1
  cleanerStep G P (processAllReservations G P st reservationIds)

/-! ## Helper lemmas -/

theorem hasMessageBeenSeen_markMessageSeen_self (s : MemState) (m r : Nat) :
    hasMessageBeenSeen (markMessageSeen s m r) m = true := by
  unfold hasMessageBeenSeen markMessageSeen
  split
  · next h => exact h
  · simp [List.any_append]

theorem markMessageSeen_of_seen {s : MemState} {m : Nat} (r : Nat)
    (h : hasMessageBeenSeen s m = true) : markMessageSeen s m r = s := by
  unfold hasMessageBeenSeen at h
  simp only [markMessageSeen, h, if_true]

theorem markMessageSeen_requests (s : MemState) (m r : Nat) :
    (markMessageSeen s m r).requests = s.requests := by
  unfold markMessageSeen; split <;> rfl

theorem markMessageSeen_drafts (s : MemState) (m r : Nat) :
    (markMessageSeen s m r).drafts = s.drafts := by
  unfold markMessageSeen; split <;> rfl

theorem markMessageSeen_nextDraftId (s : MemState) (m r : Nat) :
    (markMessageSeen s m r).nextDraftId = s.nextDraftId := by
  unfold markMessageSeen; split <;> rfl

theorem saveRequest_eq_ok {s s' : MemState} {a : Nat} {i : Intent}
    {rid gm gn pn ot rt rd : String}
    (h : saveRequest s a i rid gm gn pn ot rt rd = .ok s') :
    s' = { s with requests := s.requests ++ [{
      reservationId := a
      intent := i
      status := "pending_acknowledgment"
      requestId := rid
      guestMessage := gm
      guestName := gn
      propertyName := pn
      originalTime := ot
      requestedTime := rt
      relevantDate := rd }] } := by
  unfold saveRequest at h
  split at h
  · exact Except.noConfusion h
  · exact (Except.ok.inj h).symm

theorem updateStatus_seen (s : MemState) (rid st : String) :
    (updateStatus s rid st).seen = s.seen := rfl

theorem updateStatus_drafts (s : MemState) (rid st : String) :
    (updateStatus s rid st).drafts = s.drafts := rfl

theorem saveDraft_seen (s : MemState) (rid : String) (r : Nat) (i : Intent)
    (st : Step) (b : String) : ((saveDraft s rid r i st b).1).seen = s.seen := rfl

theorem saveDraft_requests (s : MemState) (rid : String) (r : Nat) (i : Intent)
    (st : Step) (b : String) :
    ((saveDraft s rid r i st b).1).requests = s.requests := rfl

/-! ## Concrete fixtures for witnesses and counterexamples -/

/-- A deterministic port bundle used by witnesses and counterexamples:
classifies everything as a confident early-checkin request at 12:00. -/
def fixedPorts : Ports := {
  classify := fun _ _ =>
    { intent := .early_checkin, extractedTime := some "12:00",
      needsFollowup := false, followupQuestion := none }
  composeAcknowledgment := fun _ _ => { body := "ack-body" }
  parse := fun _ _ => { answer := "yes", conditions := none, proposedTime := none }
  compose := fun _ _ => { body := "reply-body" } }

/-- A conversation context used by witnesses and counterexamples. -/
def fixedCtx : ConversationContext := {
  reservationId := 42
  guestName := "Sophie"
  propertyName := "Le Matisse"
  defaultCheckinTime := "15:00"
  defaultCheckoutTime := "11:00"
  arrivalDate := "2026-04-01"
  departureDate := "2026-04-05" }

/-- Ports whose classifier reports `needs_followup=True` but returns no
`followup_question` (the Claude adapter can produce this: it reads
`data.get("followup_question")`, which may be `None`). -/
def followupNonePorts : Ports := {
  classify := fun _ _ =>
    { intent := .early_checkin, extractedTime := none,
      needsFollowup := true, followupQuestion := none }
  composeAcknowledgment := fun _ _ => { body := "ack-body" }
  parse := fun _ _ => { answer := "yes", conditions := none, proposedTime := none }
  compose := fun _ _ => { body := "reply-body" } }

/-! ## Claim theorems -/

/-- C2: for all message ids `m` and reservation ids `r`, the seen-message
marker is an idempotent write-once marker: `hasMessageBeenSeen` is true after
the first `markMessageSeen` call, and a second identical call is a no-op
(hence cannot raise or create duplicate state).  The operations are modelled
from the spec because neither `SqliteRequestMemory` nor
`InMemoryRequestMemory` implements them in the source tree. -/
theorem markMessageSeen_idempotent (s : MemState) (m r : Nat) :
    hasMessageBeenSeen (markMessageSeen s m r) m = true ∧
    markMessageSeen (markMessageSeen s m r) m r = markMessageSeen s m r := by
  refine ⟨hasMessageBeenSeen_markMessageSeen_self s m r, ?_⟩
  exact markMessageSeen_of_seen r (hasMessageBeenSeen_markMessageSeen_self s m r)

/-- C2 witness: the general theorem applied at message id 42,
reservation 101, empty ledger. -/
theorem markMessageSeen_idempotent_witness :
    hasMessageBeenSeen (markMessageSeen emptyMem 42 101) 42 = true ∧
    markMessageSeen (markMessageSeen emptyMem 42 101) 42 101 =
      markMessageSeen emptyMem 42 101 :=
  markMessageSeen_idempotent emptyMem 42 101

/-- C10: a call to `process_message` with `message_id = 0` (the Python
default) bypasses the seen-message dedup entirely: `has_message_been_seen`
is never consulted (the `if message_id and ...` guard short-circuits),
`mark_message_seen` is never called (the seen set is unchanged), and the
classifier is invoked — so the same message is re-classified on every such
call; only the `(reservation_id, intent)` check limits re-processing. -/
theorem zero_message_id_bypasses_dedup (P : Ports) (s : MemState) (r : Nat)
    (msg : String) (ctx : ConversationContext) (reqId : String) :
    (processMessage P s r msg ctx 0 reqId).seenConsulted = false ∧
    (processMessage P s r msg ctx 0 reqId).classifierInvoked = true ∧
    (processMessage P s r msg ctx 0 reqId).state.seen = s.seen := by
  have h0 : ((0 : Nat) != 0) = false := rfl
  unfold processMessage
  simp only [h0, Bool.false_and, Bool.false_eq_true, if_false]
  split
  · exact ⟨rfl, rfl, rfl⟩
  · split
    · exact ⟨rfl, rfl, rfl⟩
    · split
      · next h => exact ⟨rfl, rfl, rfl⟩
      · next s2 h =>
          have hs2 := saveRequest_eq_ok h
          subst hs2
          split
          · exact ⟨rfl, rfl, rfl⟩
          · exact ⟨rfl, rfl, rfl⟩

theorem processMessage_marks_seen (P : Ports) (s : MemState) (r : Nat)
    (msg : String) (ctx : ConversationContext) (m : Nat) (reqId : String)
    (hm : (m != 0) = true) :
    hasMessageBeenSeen (processMessage P s r msg ctx m reqId).state m = true := by
  unfold processMessage
  simp only [hm, Bool.true_and, if_true]
  split
  · next h => exact h
  · split
    · exact hasMessageBeenSeen_markMessageSeen_self s m r
    · split
      · exact hasMessageBeenSeen_markMessageSeen_self s m r
      · split
        · exact hasMessageBeenSeen_markMessageSeen_self s m r
        · next s2 hok =>
          have h2 := saveRequest_eq_ok hok
          subst h2
          split
          · exact hasMessageBeenSeen_markMessageSeen_self s m r
          · exact hasMessageBeenSeen_markMessageSeen_self s m r

theorem processMessage_of_seen (P : Ports) (s : MemState) (r : Nat)
    (msg : String) (ctx : ConversationContext) (m : Nat) (reqId : String)
    (hm : (m != 0) = true) (hseen : hasMessageBeenSeen s m = true) :
    processMessage P s r msg ctx m reqId =
      { state := s
        outcome := .ok { action := .already_processed }
        classifierInvoked := false
        seenConsulted := true
        uuidConsumed := false } := by
  unfold processMessage
  simp only [hm, hseen, Bool.true_and, if_true]

/-- C1: submitting the same non-zero `message_id` a second time makes
`process_message` return `already_processed` without invoking the intent
classifier and without changing the ledger (zero additional drafts, zero
additional requests), whatever the second call's reservation, message text,
context or request id are.  The seen-message store consulted by the guard is
modelled from the spec (no implementation exists in the source tree). -/
theorem second_submission_already_processed (P : Ports) (s : MemState)
    (r₁ r₂ m : Nat) (msg₁ msg₂ : String) (ctx₁ ctx₂ : ConversationContext)
    (id₁ id₂ : String) (hm : m ≠ 0) :
    (processMessage P (processMessage P s r₁ msg₁ ctx₁ m id₁).state
        r₂ msg₂ ctx₂ m id₂).outcome = .ok { action := .already_processed } ∧
    (processMessage P (processMessage P s r₁ msg₁ ctx₁ m id₁).state
        r₂ msg₂ ctx₂ m id₂).state = (processMessage P s r₁ msg₁ ctx₁ m id₁).state ∧
    (processMessage P (processMessage P s r₁ msg₁ ctx₁ m id₁).state
        r₂ msg₂ ctx₂ m id₂).classifierInvoked = false := by
  have hm' : (m != 0) = true := bne_iff_ne.mpr hm
  have hseen := processMessage_marks_seen P s r₁ msg₁ ctx₁ m id₁ hm'
  rw [processMessage_of_seen P _ r₂ msg₂ ctx₂ m id₂ hm' hseen]
  exact ⟨rfl, rfl, rfl⟩

/-- C1 witness: message id 7 processed twice on a fresh ledger. -/
theorem second_submission_already_processed_witness :
    (7 : Nat) ≠ 0 ∧
    ((processMessage fixedPorts (processMessage fixedPorts emptyMem 42 "hello"
        fixedCtx 7 "req-1").state 42 "hello" fixedCtx 7 "req-2").outcome =
          .ok { action := .already_processed } ∧
     (processMessage fixedPorts (processMessage fixedPorts emptyMem 42 "hello"
        fixedCtx 7 "req-1").state 42 "hello" fixedCtx 7 "req-2").state =
          (processMessage fixedPorts emptyMem 42 "hello" fixedCtx 7 "req-1").state ∧
     (processMessage fixedPorts (processMessage fixedPorts emptyMem 42 "hello"
        fixedCtx 7 "req-1").state 42 "hello" fixedCtx 7 "req-2").classifierInvoked
          = false) :=
  ⟨by decide,
   second_submission_already_processed fixedPorts emptyMem 42 42 7 "hello" "hello"
     fixedCtx fixedCtx "req-1" "req-2" (by decide)⟩

/-- C3 counterexample: the requests storage does not enforce a unique
constraint on `(reservation_id, intent)` — only `request_id` is UNIQUE in
`_SCHEMA`.  Saving a second request for the same pair with a fresh
`request_id` succeeds and leaves two stored records for the pair. -/
theorem saveRequest_no_pair_constraint :
    ((saveRequest emptyMem 42 .early_checkin "req-1" "msg" "" "" "" "" "").bind
      (fun s₁ =>
        (saveRequest s₁ 42 .early_checkin "req-2" "msg" "" "" "" "" "").map
          (fun s₂ => (s₂.requests.filter (fun q =>
            q.reservationId == 42 && q.intent == Intent.early_checkin)).length)))
      = Except.ok 2 := by
  rfl

/-! ## Pair-uniqueness invariant (claim C3) -/

/-- Two request rows do not collide on the `(reservation_id, intent)` pair. -/
def pairNe (a b : RequestRow) : Prop :=
  ¬(a.reservationId = b.reservationId ∧ a.intent = b.intent)

instance (a b : RequestRow) : Decidable (pairNe a b) := by
  unfold pairNe; infer_instance

/-- Invariant: each `(reservation_id, intent)` pair has at most one stored
request. -/
def pairDistinct (s : MemState) : Prop :=
  s.requests.Pairwise pairNe

instance (s : MemState) : Decidable (pairDistinct s) := by
  unfold pairDistinct; infer_instance

theorem hasBeenProcessed_markMessageSeen (s : MemState) (m r r' : Nat)
    (i : Intent) :
    hasBeenProcessed (markMessageSeen s m r) r' i = hasBeenProcessed s r' i := by
  unfold hasBeenProcessed; rw [markMessageSeen_requests]

theorem hasBeenProcessed_false_forall {s : MemState} {r : Nat} {i : Intent}
    (h : hasBeenProcessed s r i = false) :
    ∀ q ∈ s.requests, ¬(q.reservationId = r ∧ q.intent = i) := by
  intro q hq hqe
  have ht : hasBeenProcessed s r i = true := by
    unfold hasBeenProcessed
    rw [List.any_eq_true]
    exact ⟨q, hq, by simp [hqe.1, hqe.2]⟩
  rw [h] at ht
  exact absurd ht (by decide)

theorem pairNe_map {l : List RequestRow} {f : RequestRow → RequestRow}
    (hf : ∀ q, (f q).reservationId = q.reservationId ∧ (f q).intent = q.intent)
    (h : l.Pairwise pairNe) : (l.map f).Pairwise pairNe := by
  refine List.Pairwise.map f (fun a b hab => ?_) h
  unfold pairNe at *
  rw [(hf a).1, (hf a).2, (hf b).1, (hf b).2]
  exact hab

theorem pairDistinct_updateStatus {s : MemState} (rid st : String)
    (h : pairDistinct s) : pairDistinct (updateStatus s rid st) := by
  unfold pairDistinct updateStatus at *
  exact pairNe_map (fun q => by split <;> exact ⟨rfl, rfl⟩) h

theorem pairDistinct_append {l : List RequestRow} {row : RequestRow}
    (h : l.Pairwise pairNe) (hrow : ∀ a ∈ l, pairNe a row) :
    (l ++ [row]).Pairwise pairNe := by
  rw [List.pairwise_append]
  refine ⟨h, List.pairwise_singleton _ _, fun a ha b hb => ?_⟩
  rw [List.mem_singleton] at hb
  subst hb
  exact hrow a ha

/-- C3 amended: the storage layer does not enforce uniqueness of
`(reservation_id, intent)` (see the counterexample), but every state reached
through the Pipeline keeps at most one request per pair, because
`process_message` checks `has_been_processed` before `save_request` and
`_handle_cleaner_response` never inserts requests. -/
theorem pair_at_most_one_via_pipeline (P : Ports) (s : MemState) (r : Nat)
    (msg : String) (ctx : ConversationContext) (m : Nat) (reqId : String)
    (resp : CleanerResponse) (h : pairDistinct s) :
    pairDistinct (processMessage P s r msg ctx m reqId).state ∧
    pairDistinct (handleCleanerResponse P s resp).1 := by
  constructor
  · cases hb : (m != 0) with
    | false =>
      unfold processMessage
      simp only [hb, Bool.false_and, Bool.false_eq_true, if_false]
      split
      · exact h
      · split
        · exact h
        · next hproc =>
          rw [Bool.not_eq_true] at hproc
          split
          · next hok => exact h
          · next s2 hok =>
            have h2 := saveRequest_eq_ok hok
            subst h2
            split
            · exact pairDistinct_append h (fun a ha => by
                have := hasBeenProcessed_false_forall hproc a ha
                unfold pairNe
                simpa using this)
            · exact pairDistinct_updateStatus _ _
                (pairDistinct_append h (fun a ha => by
                  have := hasBeenProcessed_false_forall hproc a ha
                  unfold pairNe
                  simpa using this))
    | true =>
      unfold processMessage
      simp only [hb, Bool.true_and, if_true]
      have hm : pairDistinct (markMessageSeen s m r) := by
        unfold pairDistinct
        rw [markMessageSeen_requests]
        exact h
      split
      · exact h
      · split
        · exact hm
        · split
          · exact hm
          · next hproc =>
            rw [Bool.not_eq_true, hasBeenProcessed_markMessageSeen] at hproc
            split
            · next hok => exact hm
            · next s2 hok =>
              have h2 := saveRequest_eq_ok hok
              subst h2
              split
              · exact pairDistinct_append hm (fun a ha => by
                  rw [markMessageSeen_requests] at ha
                  have := hasBeenProcessed_false_forall hproc a ha
                  unfold pairNe
                  simpa using this)
              · exact pairDistinct_updateStatus _ _
                  (pairDistinct_append hm (fun a ha => by
                    rw [markMessageSeen_requests] at ha
                    have := hasBeenProcessed_false_forall hproc a ha
                    unfold pairNe
                    simpa using this))
  · unfold handleCleanerResponse
    cases hreq : getRequest s resp.requestId with
    | none =>
      simp only [hreq, Option.isSome_none, Bool.false_eq_true, if_false]
      exact h
    | some q =>
      simp only [hreq, Option.isSome_some, if_true]
      exact pairDistinct_updateStatus _ _ h

/-- C3 amended witness: a fresh ledger is pair-distinct and stays so across
one `process_message` call and one cleaner-response handling. -/
theorem pair_at_most_one_via_pipeline_witness :
    pairDistinct emptyMem ∧
    (pairDistinct (processMessage fixedPorts emptyMem 42 "hello" fixedCtx 7
        "req-1").state ∧
     pairDistinct (handleCleanerResponse fixedPorts emptyMem
        ⟨"ghost", "Oui"⟩).1) :=
  ⟨by decide,
   pair_at_most_one_via_pipeline fixedPorts emptyMem 42 "hello" fixedCtx 7
     "req-1" ⟨"ghost", "Oui"⟩ (by decide)⟩

/-- C4 counterexample: a classification with `needs_followup=True` but no
`followup_question` does not take the follow-up branch — the guard at
`pipeline.py` line 133 is `needs_followup and followup_question` — so the
call returns `drafts_created` and saves acknowledgment and cleaner-query
drafts instead of a single followup draft. -/
theorem followup_without_question_creates_ack :
    (processMessage followupNonePorts emptyMem 42 "hello" fixedCtx 5
        "req-1").outcome = .ok { action := .drafts_created, requestId := "req-1" } ∧
    ((processMessage followupNonePorts emptyMem 42 "hello" fixedCtx 5
        "req-1").state.drafts.map (fun d => d.step)) =
      [Step.acknowledgment, Step.cleaner_query] :=
  ⟨rfl, rfl⟩

/-- C4 amended: when the classification has `needs_followup=True` AND a
non-empty `followup_question` (with intent not `other`, the pair not yet
processed, the seen-message guard not triggering, and a fresh request id),
exactly one draft is created, with step `followup` and the follow-up
question as body, no acknowledgment or cleaner-query draft is created in
that call, and the call returns `followup_drafted`. -/
theorem followup_drafted_single_draft (P : Ports) (s : MemState) (r : Nat)
    (msg : String) (ctx : ConversationContext) (m : Nat) (reqId q : String)
    (hguard : (m != 0 && hasMessageBeenSeen s m) = false)
    (hintent : (P.classify msg ctx).intent ≠ .other)
    (hnf : (P.classify msg ctx).needsFollowup = true)
    (hq : (P.classify msg ctx).followupQuestion = some q)
    (hqne : q ≠ "")
    (hproc : hasBeenProcessed s r (P.classify msg ctx).intent = false)
    (hfresh : s.requests.any (fun row => row.requestId == reqId) = false) :
    (processMessage P s r msg ctx m reqId).outcome =
      .ok { action := .followup_drafted, requestId := reqId } ∧
    (processMessage P s r msg ctx m reqId).state.drafts =
      s.drafts ++ [{
        draftId := s.nextDraftId
        requestId := reqId
        reservationId := r
        intent := (P.classify msg ctx).intent
        step := .followup
        draftBody := q
        verdict := "pending" }] := by
  have hqb : (q != "") = true := bne_iff_ne.mpr hqne
  unfold processMessage
  simp only [hguard, Bool.false_eq_true, if_false]
  cases hb : (m != 0) with
  | false =>
    simp only [hb, Bool.false_eq_true, if_false, if_neg hintent]
    simp only [hproc, Bool.false_eq_true, if_false]
    simp only [saveRequest, hfresh, Bool.false_eq_true, if_false]
    simp only [hnf, hq, optStrTruthy, hqb, Bool.and_self, if_true,
      Option.getD_some]
    refine ⟨?_, ?_⟩ <;> first | trivial | rfl
  | true =>
    simp only [hb, if_true, if_neg hintent]
    simp only [hasBeenProcessed_markMessageSeen, hproc, Bool.false_eq_true,
      if_false]
    simp only [saveRequest, markMessageSeen_requests, hfresh,
      Bool.false_eq_true, if_false]
    simp only [hnf, hq, optStrTruthy, hqb, Bool.and_self, if_true,
      Option.getD_some]
    refine ⟨?_, ?_⟩
    · first | trivial | rfl
    · simp only [saveDraft, markMessageSeen_drafts, markMessageSeen_nextDraftId]

/-- Ports whose classifier asks a follow-up question, used as the C4 amended
witness input. -/
def followupPorts : Ports := {
  classify := fun _ _ =>
    { intent := .early_checkin, extractedTime := none,
      needsFollowup := true, followupQuestion := some "Quelle heure ?" }
  composeAcknowledgment := fun _ _ => { body := "ack-body" }
  parse := fun _ _ => { answer := "yes", conditions := none, proposedTime := none }
  compose := fun _ _ => { body := "reply-body" } }

/-- C4 amended witness: a concrete followup-needing classification on a
fresh ledger produces exactly the single followup draft. -/
theorem followup_drafted_single_draft_witness :
    ((5 : Nat) != 0 && hasMessageBeenSeen emptyMem 5) = false ∧
    (followupPorts.classify "hello" fixedCtx).intent ≠ .other ∧
    (followupPorts.classify "hello" fixedCtx).needsFollowup = true ∧
    (followupPorts.classify "hello" fixedCtx).followupQuestion =
      some "Quelle heure ?" ∧
    "Quelle heure ?" ≠ "" ∧
    hasBeenProcessed emptyMem 42
      (followupPorts.classify "hello" fixedCtx).intent = false ∧
    emptyMem.requests.any (fun row => row.requestId == "req-1") = false ∧
    ((processMessage followupPorts emptyMem 42 "hello" fixedCtx 5
        "req-1").outcome =
      .ok { action := .followup_drafted, requestId := "req-1" } ∧
     (processMessage followupPorts emptyMem 42 "hello" fixedCtx 5
        "req-1").state.drafts =
      emptyMem.drafts ++ [{
        draftId := emptyMem.nextDraftId
        requestId := "req-1"
        reservationId := 42
        intent := (followupPorts.classify "hello" fixedCtx).intent
        step := .followup
        draftBody := "Quelle heure ?"
        verdict := "pending" }]) :=
  ⟨by decide, by decide, rfl, rfl, by decide, by decide, by decide,
   followup_drafted_single_draft followupPorts emptyMem 42 "hello" fixedCtx 5
     "req-1" "Quelle heure ?" (by decide) (by decide) rfl rfl (by decide)
     (by decide) (by decide)⟩

/-- The stub `CleanerQuery` that `_handle_cleaner_response` builds when the
request lookup returns `None` (every field falls back to its default). -/
def unknownStubQuery (P : Ports) (response : CleanerResponse) : CleanerQuery := {
  requestId := response.requestId
  cleanerName := P.cleanerName
  guestName := ""
  propertyName := ""
  requestType := .early_checkin
  originalTime := ""
  requestedTime := ""
  date := ""
  message := "(unknown)" }

/-- C7: a cleaner response whose `request_id` has no stored request does not
raise: the handler proceeds with the best-effort empty context, still parses
and composes, saves exactly one `guest_reply` draft (reservation 0, intent
`early_checkin`, the composed body), returns `reply_drafted`, and leaves the
requests table — in particular every status — untouched, so the
`pending_reply` status update happens only when the request exists. -/
theorem cleaner_response_unknown_request (P : Ports) (s : MemState)
    (resp : CleanerResponse) (h : getRequest s resp.requestId = none) :
    (handleCleanerResponse P s resp).2 =
      { action := .reply_drafted, requestId := resp.requestId } ∧
    (handleCleanerResponse P s resp).1.requests = s.requests ∧
    (handleCleanerResponse P s resp).1.drafts = s.drafts ++ [{
      draftId := s.nextDraftId
      requestId := resp.requestId
      reservationId := 0
      intent := .early_checkin
      step := .guest_reply
      draftBody := (P.compose (P.parse resp.rawText (unknownStubQuery P resp))
        (unknownStubQuery P resp)).body
      verdict := "pending" }] := by
  unfold handleCleanerResponse
  simp only [h, Option.isSome_none, Bool.false_eq_true, if_false]
  refine ⟨?_, ?_, ?_⟩ <;> first | trivial | rfl

/-- C7 witness: an unknown request id on a fresh ledger. -/
theorem cleaner_response_unknown_request_witness :
    getRequest emptyMem "ghost" = none ∧
    ((handleCleanerResponse fixedPorts emptyMem ⟨"ghost", "Oui"⟩).2 =
      { action := .reply_drafted, requestId := "ghost" } ∧
     (handleCleanerResponse fixedPorts emptyMem ⟨"ghost", "Oui"⟩).1.requests =
      emptyMem.requests ∧
     (handleCleanerResponse fixedPorts emptyMem ⟨"ghost", "Oui"⟩).1.drafts =
      emptyMem.drafts ++ [{
        draftId := emptyMem.nextDraftId
        requestId := "ghost"
        reservationId := 0
        intent := .early_checkin
        step := .guest_reply
        draftBody := (fixedPorts.compose
          (fixedPorts.parse "Oui" (unknownStubQuery fixedPorts ⟨"ghost", "Oui"⟩))
          (unknownStubQuery fixedPorts ⟨"ghost", "Oui"⟩)).body
        verdict := "pending" }]) :=
  ⟨rfl, cleaner_response_unknown_request fixedPorts emptyMem ⟨"ghost", "Oui"⟩ rfl⟩

/-- C8 counterexample: handling a cleaner response with an unknown
`request_id` on an empty ledger stores a draft whose `request_id` (`"ghost"`)
references no stored request — the requests table is empty before, during
and after the draft's creation, falsifying the claimed invariant. -/
theorem draft_stored_without_request :
    ((handleCleanerResponse fixedPorts emptyMem ⟨"ghost", "Oui"⟩).1.drafts.map
      (fun d => d.requestId)) = ["ghost"] ∧
    getRequest (handleCleanerResponse fixedPorts emptyMem ⟨"ghost", "Oui"⟩).1
      "ghost" = none ∧
    (handleCleanerResponse fixedPorts emptyMem ⟨"ghost", "Oui"⟩).1.requests = [] :=
  ⟨rfl, rfl, rfl⟩

/-! ## Draft-to-request referential integrity (claim C8) -/

/-- Invariant: every stored draft's `request_id` has a stored request. -/
def draftsRefRequests (s : MemState) : Prop :=
  ∀ d ∈ s.drafts, ∃ qr ∈ s.requests, qr.requestId = d.requestId

instance (s : MemState) : Decidable (draftsRefRequests s) := by
  unfold draftsRefRequests; infer_instance

theorem draftsRef_mark {s : MemState} (m r : Nat)
    (h : draftsRefRequests s) : draftsRefRequests (markMessageSeen s m r) := by
  intro d hd
  rw [markMessageSeen_drafts] at hd
  obtain ⟨q, hq, hx⟩ := h d hd
  exact ⟨q, by rw [markMessageSeen_requests]; exact hq, hx⟩

theorem draftsRef_updateStatus {s : MemState} (rid st : String)
    (h : draftsRefRequests s) : draftsRefRequests (updateStatus s rid st) := by
  intro d hd
  rw [updateStatus_drafts] at hd
  obtain ⟨q, hq, hx⟩ := h d hd
  exact ⟨_, List.mem_map_of_mem _ hq, by split <;> simpa using hx⟩

theorem draftsRef_saveDraft {s : MemState} {rid : String} {r : Nat}
    {i : Intent} {st : Step} {b : String}
    (h : draftsRefRequests s) (hrid : ∃ q ∈ s.requests, q.requestId = rid) :
    draftsRefRequests (saveDraft s rid r i st b).1 := by
  intro d hd
  simp only [saveDraft, List.mem_append, List.mem_singleton] at hd
  cases hd with
  | inl hdl => exact h d hdl
  | inr hdr =>
    subst hdr
    obtain ⟨q, hq, hx⟩ := hrid
    exact ⟨q, hq, hx⟩

theorem draftsRef_append_request {s : MemState} {row : RequestRow}
    (h : draftsRefRequests s) :
    draftsRefRequests { s with requests := s.requests ++ [row] } := by
  intro d hd
  obtain ⟨q, hq, hx⟩ := h d hd
  exact ⟨q, List.mem_append_left _ hq, hx⟩

theorem mem_append_self_requestId (l : List RequestRow) (row : RequestRow) :
    ∃ q ∈ l ++ [row], q.requestId = row.requestId :=
  ⟨row, List.mem_append_right _ (List.mem_singleton_self _), rfl⟩

/-- C8 amended: drafts reference existing requests in every state the
pipeline reaches through `process_message` — unconditionally, including the
first call on a fresh ledger, because the request row is always saved before
its drafts — and through cleaner-response handling whenever the response's
`request_id` is known; an unknown `request_id` is the one exception (see the
counterexample). -/
theorem drafts_reference_requests_preserved (P : Ports) (s : MemState)
    (r : Nat) (msg : String) (ctx : ConversationContext) (m : Nat)
    (reqId : String) (resp : CleanerResponse)
    (hinv : draftsRefRequests s) :
    draftsRefRequests (processMessage P s r msg ctx m reqId).state ∧
    ((getRequest s resp.requestId).isSome = true →
      draftsRefRequests (handleCleanerResponse P s resp).1) := by
  constructor
  · cases hb : (m != 0) with
    | false =>
      unfold processMessage
      simp only [hb, Bool.false_and, Bool.false_eq_true, if_false]
      split
      · exact hinv
      · split
        · exact hinv
        · split
          · exact hinv
          · next s2 hok =>
            have h2 := saveRequest_eq_ok hok
            subst h2
            have hap := @draftsRef_append_request s {
              reservationId := r
              intent := (P.classify msg ctx).intent
              status := "pending_acknowledgment"
              requestId := reqId
              guestMessage := msg
              guestName := ctx.guestName
              propertyName := ctx.propertyName
              originalTime :=
                if (P.classify msg ctx).intent = Intent.early_checkin then
                  ctx.defaultCheckinTime
                else ctx.defaultCheckoutTime
              requestedTime := orQuestionMark (P.classify msg ctx).extractedTime
              relevantDate :=
                if (P.classify msg ctx).intent = Intent.early_checkin then
                  ctx.arrivalDate
                else ctx.departureDate } hinv
            split
            · exact draftsRef_saveDraft hap (mem_append_self_requestId _ _)
            · exact draftsRef_updateStatus _ _
                (draftsRef_saveDraft
                  (draftsRef_saveDraft hap (mem_append_self_requestId _ _))
                  (mem_append_self_requestId _ _))
    | true =>
      unfold processMessage
      simp only [hb, Bool.true_and, if_true]
      have hmk := draftsRef_mark (s := s) m r hinv
      split
      · exact hinv
      · split
        · exact hmk
        · split
          · exact hmk
          · split
            · exact hmk
            · next s2 hok =>
              have h2 := saveRequest_eq_ok hok
              subst h2
              have hap := @draftsRef_append_request (markMessageSeen s m r)
                {
                  reservationId := r
                  intent := (P.classify msg ctx).intent
                  status := "pending_acknowledgment"
                  requestId := reqId
                  guestMessage := msg
                  guestName := ctx.guestName
                  propertyName := ctx.propertyName
                  originalTime :=
                    if (P.classify msg ctx).intent = Intent.early_checkin then
                      ctx.defaultCheckinTime
                    else ctx.defaultCheckoutTime
                  requestedTime := orQuestionMark (P.classify msg ctx).extractedTime
                  relevantDate :=
                    if (P.classify msg ctx).intent = Intent.early_checkin then
                      ctx.arrivalDate
                    else ctx.departureDate } hmk
              split
              · exact draftsRef_saveDraft hap (mem_append_self_requestId _ _)
              · exact draftsRef_updateStatus _ _
                  (draftsRef_saveDraft
                    (draftsRef_saveDraft hap (mem_append_self_requestId _ _))
                    (mem_append_self_requestId _ _))
  · intro hresp
    unfold handleCleanerResponse
    cases hreq : getRequest s resp.requestId with
    | none => rw [hreq] at hresp; exact absurd hresp (by decide)
    | some q0 =>
      simp only [hreq, Option.isSome_some, if_true]
      have hq0 : q0 ∈ s.requests ∧ q0.requestId = resp.requestId := by
        unfold getRequest at hreq
        refine ⟨List.mem_of_find?_eq_some hreq, ?_⟩
        have := List.find?_some hreq
        simpa using this
      exact draftsRef_updateStatus _ _
        (draftsRef_saveDraft hinv ⟨q0, hq0.1, hq0.2⟩)

/-- C8 amended witness: the unconditional `process_message` conjunct applied
to the very first call on a fresh ledger (no stored requests), then one more
call and one known-request cleaner-response handling on the resulting
state. -/
theorem drafts_reference_requests_preserved_witness :
    draftsRefRequests emptyMem ∧
    draftsRefRequests (processMessage fixedPorts emptyMem 42 "hello" fixedCtx 7
      "req-1").state ∧
    (getRequest (processMessage fixedPorts emptyMem 42 "hello" fixedCtx 7
      "req-1").state "req-1").isSome = true ∧
    (draftsRefRequests (processMessage fixedPorts (processMessage fixedPorts
        emptyMem 42 "hello" fixedCtx 7 "req-1").state 43 "hi" fixedCtx 8
        "req-2").state ∧
     draftsRefRequests (handleCleanerResponse fixedPorts (processMessage
        fixedPorts emptyMem 42 "hello" fixedCtx 7 "req-1").state
        ⟨"req-1", "Oui"⟩).1) :=
  ⟨by decide,
   (drafts_reference_requests_preserved fixedPorts emptyMem 42 "hello"
     fixedCtx 7 "req-1" ⟨"req-1", "Oui"⟩ (by decide)).1,
   by decide,
   (drafts_reference_requests_preserved fixedPorts
     (processMessage fixedPorts emptyMem 42 "hello" fixedCtx 7 "req-1").state
     43 "hi" fixedCtx 8 "req-2" ⟨"req-1", "Oui"⟩ (by decide)).1,
   (drafts_reference_requests_preserved fixedPorts
     (processMessage fixedPorts emptyMem 42 "hello" fixedCtx 7 "req-1").state
     43 "hi" fixedCtx 8 "req-2" ⟨"req-1", "Oui"⟩ (by decide)).2 (by decide)⟩

/-! ## Temporal behaviour across calls (claim C9) -/

/-- One ledger-mutating pipeline call: a guest message processed by
`process_message`, or a cleaner response handled by
`_handle_cleaner_response`. -/
inductive Op where
  | msg : Nat → String → ConversationContext → Nat → String → Op
  | cleaner : CleanerResponse → Op

/-- Runs one pipeline call against the ledger. -/
def runOp (P : Ports) (s : MemState) : Op → MemState
  | .msg r m ctx mid rid => (processMessage P s r m ctx mid rid).state
  | .cleaner resp => (handleCleanerResponse P s resp).1

/-- Runs a sequence of pipeline calls. -/
def runTrace (P : Ports) (s : MemState) (ops : List Op) : MemState :=
  ops.foldl (runOp P) s

/-- The stored acknowledgment / cleaner-query drafts for one
`(reservation_id, intent)` pair. -/
def ackCqDraftsFor (s : MemState) (r : Nat) (i : Intent) : List DraftRow :=
  s.drafts.filter (fun d => d.reservationId == r && d.intent == i &&
    (d.step == Step.acknowledgment || d.step == Step.cleaner_query))

theorem hasBeenProcessed_updateStatus (s : MemState) (rid st : String)
    (r : Nat) (i : Intent) :
    hasBeenProcessed (updateStatus s rid st) r i = hasBeenProcessed s r i := by
  unfold hasBeenProcessed updateStatus
  induction s.requests with
  | nil => rfl
  | cons q l ih =>
    simp only [List.map_cons, List.any_cons]
    rw [ih]
    congr 1
    split <;> rfl

theorem hasBeenProcessed_append_true {l : List RequestRow} {row : RequestRow}
    {r : Nat} {i : Intent}
    (h : l.any (fun q => q.reservationId == r && q.intent == i) = true) :
    (l ++ [row]).any (fun q => q.reservationId == r && q.intent == i) = true := by
  rw [List.any_append, h]
  rfl

theorem hasBeenProcessed_mono_msg (P : Ports) (s : MemState) (r' : Nat)
    (msg : String) (ctx : ConversationContext) (m : Nat) (rid : String)
    {r : Nat} {i : Intent} (h : hasBeenProcessed s r i = true) :
    hasBeenProcessed (processMessage P s r' msg ctx m rid).state r i = true := by
  cases hb : (m != 0) with
  | false =>
    unfold processMessage
    simp only [hb, Bool.false_and, Bool.false_eq_true, if_false]
    split
    · exact h
    · split
      · exact h
      · split
        · exact h
        · next s2 hok =>
          have h2 := saveRequest_eq_ok hok
          subst h2
          split
          · exact hasBeenProcessed_append_true h
          · rw [hasBeenProcessed_updateStatus]
            exact hasBeenProcessed_append_true h
  | true =>
    unfold processMessage
    simp only [hb, Bool.true_and, if_true]
    have hmk : hasBeenProcessed (markMessageSeen s m r') r i = true := by
      rw [hasBeenProcessed_markMessageSeen]; exact h
    split
    · exact h
    · split
      · exact hmk
      · split
        · exact hmk
        · split
          · exact hmk
          · next s2 hok =>
            have h2 := saveRequest_eq_ok hok
            subst h2
            split
            · exact hasBeenProcessed_append_true hmk
            · rw [hasBeenProcessed_updateStatus]
              exact hasBeenProcessed_append_true hmk

theorem hasBeenProcessed_mono_cleaner (P : Ports) (s : MemState)
    (resp : CleanerResponse) {r : Nat} {i : Intent}
    (h : hasBeenProcessed s r i = true) :
    hasBeenProcessed (handleCleanerResponse P s resp).1 r i = true := by
  unfold handleCleanerResponse
  cases hreq : getRequest s resp.requestId with
  | none =>
    simp only [hreq, Option.isSome_none, Bool.false_eq_true, if_false]
    exact h
  | some q0 =>
    simp only [hreq, Option.isSome_some, if_true]
    rw [hasBeenProcessed_updateStatus]
    exact h

theorem ackCq_saveDraft_skip {s : MemState} {rid : String} {r' : Nat}
    {i' : Intent} {st : Step} {b : String} {r : Nat} {i : Intent}
    (hne : (r' == r && i' == i &&
      (st == Step.acknowledgment || st == Step.cleaner_query)) = false) :
    ackCqDraftsFor (saveDraft s rid r' i' st b).1 r i = ackCqDraftsFor s r i := by
  unfold ackCqDraftsFor saveDraft
  simp [List.filter_append, List.filter_cons, hne]

theorem ackCq_updateStatus (s : MemState) (rid st : String) (r : Nat)
    (i : Intent) :
    ackCqDraftsFor (updateStatus s rid st) r i = ackCqDraftsFor s r i := rfl

theorem ackCq_mark (s : MemState) (m r' : Nat) (r : Nat) (i : Intent) :
    ackCqDraftsFor (markMessageSeen s m r') r i = ackCqDraftsFor s r i := by
  unfold ackCqDraftsFor
  rw [markMessageSeen_drafts]

theorem ackCq_step (P : Ports) (s : MemState) (op : Op) {r : Nat} {i : Intent}
    (h : hasBeenProcessed s r i = true) :
    ackCqDraftsFor (runOp P s op) r i = ackCqDraftsFor s r i ∧
    hasBeenProcessed (runOp P s op) r i = true := by
  cases op with
  | cleaner resp =>
    refine ⟨?_, hasBeenProcessed_mono_cleaner P s resp h⟩
    unfold runOp handleCleanerResponse
    cases hreq : getRequest s resp.requestId with
    | none =>
      simp only [hreq, Option.isSome_none, Bool.false_eq_true, if_false]
      exact ackCq_saveDraft_skip (by simp)
    | some q0 =>
      simp only [hreq, Option.isSome_some, if_true]
      rw [ackCq_updateStatus]
      exact ackCq_saveDraft_skip (by simp)
  | msg r' msg' ctx' m' rid' =>
    refine ⟨?_, hasBeenProcessed_mono_msg P s r' msg' ctx' m' rid' h⟩
    unfold runOp
    cases hb : (m' != 0) with
    | false =>
      unfold processMessage
      simp only [hb, Bool.false_and, Bool.false_eq_true, if_false]
      split
      · rfl
      · split
        · rfl
        · next hproc =>
          rw [Bool.not_eq_true] at hproc
          have hne : (r' == r && (P.classify msg' ctx').intent == i) = false := by
            by_contra hcon
            rw [Bool.not_eq_false, Bool.and_eq_true, beq_iff_eq, beq_iff_eq]
              at hcon
            obtain ⟨he1, he2⟩ := hcon
            rw [he1, he2, h] at hproc
            exact absurd hproc (by decide)
          split
          · rfl
          · next s2 hok =>
            have h2 := saveRequest_eq_ok hok
            subst h2
            split
            · rw [ackCq_saveDraft_skip (by simp)]
              rfl
            · rw [ackCq_updateStatus, ackCq_saveDraft_skip (by simp [hne]),
                ackCq_saveDraft_skip (by simp [hne])]
              rfl
    | true =>
      unfold processMessage
      simp only [hb, Bool.true_and, if_true]
      split
      · rfl
      · split
        · exact ackCq_mark s m' r' r i
        · split
          · exact ackCq_mark s m' r' r i
          · next hproc =>
            rw [Bool.not_eq_true, hasBeenProcessed_markMessageSeen] at hproc
            have hne : (r' == r && (P.classify msg' ctx').intent == i) = false := by
              by_contra hcon
              rw [Bool.not_eq_false, Bool.and_eq_true, beq_iff_eq, beq_iff_eq]
                at hcon
              obtain ⟨he1, he2⟩ := hcon
              rw [he1, he2, h] at hproc
              exact absurd hproc (by decide)
            split
            · exact ackCq_mark s m' r' r i
            · next s2 hok =>
              have h2 := saveRequest_eq_ok hok
              subst h2
              split
              · rw [ackCq_saveDraft_skip (by simp)]
                exact ackCq_mark s m' r' r i
              · rw [ackCq_updateStatus, ackCq_saveDraft_skip (by simp [hne]),
                  ackCq_saveDraft_skip (by simp [hne])]
                exact ackCq_mark s m' r' r i

theorem ackCq_trace (P : Ports) (s : MemState) (ops : List Op) {r : Nat}
    {i : Intent} (h : hasBeenProcessed s r i = true) :
    ackCqDraftsFor (runTrace P s ops) r i = ackCqDraftsFor s r i ∧
    hasBeenProcessed (runTrace P s ops) r i = true := by
  induction ops generalizing s with
  | nil => exact ⟨rfl, h⟩
  | cons op rest ih =>
    have hstep := ackCq_step P s op h
    have htail := ih (runOp P s op) hstep.2
    exact ⟨htail.1.trans hstep.1, htail.2⟩

theorem processMessage_followup_outcome (P : Ports) (s : MemState) (r : Nat)
    (msg : String) (ctx : ConversationContext) (m : Nat) (reqId : String)
    (hout : (processMessage P s r msg ctx m reqId).outcome =
      .ok { action := .followup_drafted, requestId := reqId }) :
    hasBeenProcessed (processMessage P s r msg ctx m reqId).state r
      (P.classify msg ctx).intent = true ∧
    ackCqDraftsFor (processMessage P s r msg ctx m reqId).state r
      (P.classify msg ctx).intent =
      ackCqDraftsFor s r (P.classify msg ctx).intent ∧
    (P.classify msg ctx).intent ≠ .other := by
  revert hout
  cases hb : (m != 0) with
  | false =>
    unfold processMessage
    simp only [hb, Bool.false_and, Bool.false_eq_true, if_false]
    split
    · intro hout; exact absurd hout (by simp)
    · next hother =>
      split
      · intro hout; exact absurd hout (by simp)
      · split
        · intro hout; exact absurd hout (by simp)
        · next s2 hok =>
          have h2 := saveRequest_eq_ok hok
          subst h2
          split
          · intro _
            refine ⟨?_, ?_, hother⟩
            · simp [hasBeenProcessed, saveDraft, List.any_append]
            · rw [ackCq_saveDraft_skip (by simp)]
              rfl
          · intro hout; exact absurd hout (by simp)
  | true =>
    unfold processMessage
    simp only [hb, Bool.true_and, if_true]
    split
    · intro hout; exact absurd hout (by simp)
    · split
      · intro hout; exact absurd hout (by simp)
      · next hother =>
        split
        · intro hout; exact absurd hout (by simp)
        · split
          · intro hout; exact absurd hout (by simp)
          · next s2 hok =>
            have h2 := saveRequest_eq_ok hok
            subst h2
            split
            · intro _
              refine ⟨?_, ?_, hother⟩
              · simp [hasBeenProcessed, saveDraft, List.any_append]
              · rw [ackCq_saveDraft_skip (by simp)]
                exact ackCq_mark s m r r (P.classify msg ctx).intent
            · intro hout; exact absurd hout (by simp)

theorem processMessage_already_processed_of_processed (P : Ports)
    (s : MemState) (r : Nat) (msg : String) (ctx : ConversationContext)
    (m : Nat) (reqId : String)
    (hi : (P.classify msg ctx).intent ≠ .other)
    (h : hasBeenProcessed s r (P.classify msg ctx).intent = true) :
    (processMessage P s r msg ctx m reqId).outcome =
      .ok { action := .already_processed } ∧
    (processMessage P s r msg ctx m reqId).state.drafts = s.drafts ∧
    (processMessage P s r msg ctx m reqId).state.requests = s.requests := by
  cases hb : (m != 0) with
  | false =>
    unfold processMessage
    simp only [hb, Bool.false_and, Bool.false_eq_true, if_false, if_neg hi]
    simp only [h, if_true]
    refine ⟨?_, ?_, ?_⟩ <;> first | trivial | rfl
  | true =>
    unfold processMessage
    simp only [hb, Bool.true_and, if_true]
    split
    · refine ⟨?_, ?_, ?_⟩ <;> first | trivial | rfl
    · simp only [if_neg hi, hasBeenProcessed_markMessageSeen, h, if_true]
      refine ⟨?_, ?_, ?_⟩
      · first | trivial | rfl
      · exact markMessageSeen_drafts s m r
      · exact markMessageSeen_requests s m r

/-- C9: once `process_message` has returned `followup_drafted` for a
`(reservation_id, intent)` pair, `has_been_processed` is true for the pair
(the request row is saved before the follow-up branch) and stays true along
every sequence of further pipeline calls; no acknowledgment or cleaner-query
draft for the pair is ever added by those calls; and any later
`process_message` call for the same reservation whose classification yields
the same intent returns `already_processed`. -/
theorem followup_blocks_future_ack_drafts (P : Ports) (s : MemState)
    (r : Nat) (msg : String) (ctx : ConversationContext) (m : Nat)
    (reqId : String)
    (hout : (processMessage P s r msg ctx m reqId).outcome =
      .ok { action := .followup_drafted, requestId := reqId })
    (ops : List Op) (msg' : String) (ctx' : ConversationContext) (m' : Nat)
    (reqId' : String)
    (hi : (P.classify msg' ctx').intent = (P.classify msg ctx).intent) :
    hasBeenProcessed
      (runTrace P (processMessage P s r msg ctx m reqId).state ops) r
      (P.classify msg ctx).intent = true ∧
    ackCqDraftsFor
      (runTrace P (processMessage P s r msg ctx m reqId).state ops) r
      (P.classify msg ctx).intent =
      ackCqDraftsFor s r (P.classify msg ctx).intent ∧
    (processMessage P
      (runTrace P (processMessage P s r msg ctx m reqId).state ops) r msg'
      ctx' m' reqId').outcome = .ok { action := .already_processed } := by
  obtain ⟨hp, hack, hio⟩ :=
    processMessage_followup_outcome P s r msg ctx m reqId hout
  have htr := ackCq_trace P (processMessage P s r msg ctx m reqId).state ops hp
  refine ⟨htr.2, htr.1.trans hack, ?_⟩
  have hlast := processMessage_already_processed_of_processed P
    (runTrace P (processMessage P s r msg ctx m reqId).state ops) r msg' ctx'
    m' reqId' (by rw [hi]; exact hio) (by rw [hi]; exact htr.2)
  exact hlast.1

/-- C9 witness: a follow-up call on a fresh ledger, a two-operation trace,
then a same-intent re-classification returning `already_processed`. -/
theorem followup_blocks_future_ack_drafts_witness :
    (processMessage followupPorts emptyMem 42 "hello" fixedCtx 5
        "req-1").outcome =
      .ok { action := .followup_drafted, requestId := "req-1" } ∧
    (followupPorts.classify "again" fixedCtx).intent =
      (followupPorts.classify "hello" fixedCtx).intent ∧
    (hasBeenProcessed
        (runTrace followupPorts (processMessage followupPorts emptyMem 42
          "hello" fixedCtx 5 "req-1").state
          [Op.cleaner ⟨"req-1", "Oui"⟩]) 42
        (followupPorts.classify "hello" fixedCtx).intent = true ∧
     ackCqDraftsFor
        (runTrace followupPorts (processMessage followupPorts emptyMem 42
          "hello" fixedCtx 5 "req-1").state
          [Op.cleaner ⟨"req-1", "Oui"⟩]) 42
        (followupPorts.classify "hello" fixedCtx).intent =
        ackCqDraftsFor emptyMem 42
          (followupPorts.classify "hello" fixedCtx).intent ∧
     (processMessage followupPorts
        (runTrace followupPorts (processMessage followupPorts emptyMem 42
          "hello" fixedCtx 5 "req-1").state
          [Op.cleaner ⟨"req-1", "Oui"⟩]) 42 "again" fixedCtx 6
        "req-2").outcome = .ok { action := .already_processed }) :=
  ⟨rfl, rfl,
   followup_blocks_future_ack_drafts followupPorts emptyMem 42 "hello"
     fixedCtx 5 "req-1" rfl [Op.cleaner ⟨"req-1", "Oui"⟩] "again"
     fixedCtx 6 "req-2" rfl⟩

/-! ## Thread-scan pagination bound (claim C6) -/

/-- A fetched page on which the scan loop stops: an empty page, or a page
whose threads are all older than the cutoff (`all` of an empty list is also
`True` in Python, so an empty page satisfies both stop conditions). -/
def pageStops (cutoff : Int) : Except String ThreadPage → Bool
  | .error _ => false
  | .ok tp => tp.threads.isEmpty ||
      tp.threads.all (fun t => decide (t.latestMessageAt < cutoff))

/-- A fetched page on which the scan loop continues: non-empty, at least one
thread at or after the cutoff, and `has_more` true. -/
def pageGood (cutoff : Int) : Except String ThreadPage → Bool
  | .error _ => false
  | .ok tp => !tp.threads.isEmpty &&
      !(tp.threads.all (fun t => decide (t.latestMessageAt < cutoff))) &&
      tp.hasMore

theorem scanThreads_fetch_count (getThreads : Nat → Except String ThreadPage)
    (cutoff : Int) :
    ∀ (d p fuel : Nat) (acc : List Nat) (f : Nat),
      (∀ j, j < d → pageGood cutoff (getThreads (p + j)) = true) →
      pageStops cutoff (getThreads (p + d)) = true →
      d < fuel →
      (scanThreads getThreads cutoff fuel p acc f).2 = f + d + 1 := by
  intro d
  induction d with
  | zero =>
    intro p fuel acc f hgood hstop hfuel
    cases fuel with
    | zero => omega
    | succ fuel' =>
      rw [Nat.add_zero] at hstop
      unfold scanThreads
      cases hg : getThreads p with
      | error e => rfl
      | ok tp =>
        rw [hg] at hstop
        simp only [pageStops, Bool.or_eq_true] at hstop
        cases hstop with
        | inl hemp => simp [hemp]
        | inr hall =>
          by_cases hemp : tp.threads.isEmpty
          · simp [hemp]
          · simp [hemp, hall]
  | succ d' ih =>
    intro p fuel acc f hgood hstop hfuel
    cases fuel with
    | zero => omega
    | succ fuel' =>
      have hg0 := hgood 0 (by omega)
      rw [Nat.add_zero] at hg0
      unfold scanThreads
      cases hg : getThreads p with
      | error e => rw [hg] at hg0; simp [pageGood] at hg0
      | ok tp =>
        rw [hg] at hg0
        simp only [pageGood, Bool.and_eq_true, Bool.not_eq_true'] at hg0
        obtain ⟨⟨hne, hnall⟩, hmore⟩ := hg0
        simp only [hg, hne, hnall, hmore, Bool.false_eq_true, if_false,
          Bool.not_true]
        have hrec := ih (p + 1) fuel' (collectThreads cutoff acc tp.threads)
          (f + 1)
          (fun j hj => by
            have := hgood (j + 1) (by omega)
            rwa [show p + (j + 1) = p + 1 + j by omega] at this)
          (by rwa [show p + 1 + d' = p + (d' + 1) by omega])
          (by omega)
        rw [hrec]
        omega

/-- C6: the thread-scan loop of `poll_once` is page-bounded and terminates:
if pages `1 .. k-1` each contain a thread inside the cutoff and report
`has_more`, and page `k` is the first stopping page — empty, or with all of
its threads older than the cutoff — then exactly `k` pages are fetched,
regardless of how many further pages the source could serve (any fuel
`≥ k` gives the same count).  Second conjunct: an empty page terminates the
scan immediately — the fetch on which it is returned is the last one. -/
theorem thread_scan_fetches_exactly_k
    (getThreads : Nat → Except String ThreadPage) (cutoff : Int)
    (k fuel : Nat) (hk : 1 ≤ k)
    (hgood : ∀ j, j < k - 1 → pageGood cutoff (getThreads (1 + j)) = true)
    (hstop : pageStops cutoff (getThreads k) = true)
    (hfuel : k ≤ fuel) :
    (scanThreads getThreads cutoff fuel 1 [] 0).2 = k ∧
    (∀ (p f fuel' : Nat) (acc : List Nat) (hm : Bool),
      getThreads p = .ok ⟨[], hm⟩ →
      (scanThreads getThreads cutoff (fuel' + 1) p acc f).2 = f + 1) := by
  constructor
  · have hcount := scanThreads_fetch_count getThreads cutoff (k - 1) 1 fuel []
      0 hgood (by rwa [show 1 + (k - 1) = k by omega]) (by omega)
    rw [hcount]
    omega
  · intro p f fuel' acc hm hg
    unfold scanThreads
    simp [hg]

/-- A three-page activity feed used as the C6 witness: page 1 has a thread
inside the cutoff, page 2 is entirely older, page 3 would be empty but is
never fetched. -/
def demoPages : Nat → Except String ThreadPage
  | 1 => .ok ⟨[⟨101, "Guest", "Apt", 10⟩], true⟩
  | 2 => .ok ⟨[⟨102, "Guest", "Apt", -5⟩], true⟩
  | _ => .ok ⟨[], false⟩

/-- C6 witness: with cutoff 0 the scan stops after exactly 2 of the 3 pages,
and an empty page stops it after exactly 1 fetch. -/
theorem thread_scan_fetches_exactly_k_witness :
    (1 ≤ 2 ∧ (∀ j, j < 2 - 1 → pageGood 0 (demoPages (1 + j)) = true) ∧
      pageStops 0 (demoPages 2) = true ∧ 2 ≤ 5) ∧
    ((scanThreads demoPages 0 5 1 [] 0).2 = 2 ∧
     (∀ (p f fuel' : Nat) (acc : List Nat) (hm : Bool),
        demoPages p = .ok ⟨[], hm⟩ →
        (scanThreads demoPages 0 (fuel' + 1) p acc f).2 = f + 1)) :=
  ⟨⟨by decide, by decide, by decide, by decide⟩,
   thread_scan_fetches_exactly_k demoPages 0 2 5 (by decide) (by decide)
     (by decide) (by decide)⟩

/-! ## Per-reservation failure isolation (claim C5) -/

/-- A raising `process_message` call leaves the drafts and requests tables
exactly as they were (the only raise site is the `save_request` insert,
reached before any draft is written; only the seen-marker may have been
committed), and the `uuid4` supply was consumed. -/
theorem processMessage_error_effects (P : Ports) (s : MemState) (r : Nat)
    (msg : String) (ctx : ConversationContext) (m : Nat) (reqId e : String)
    (herr : (processMessage P s r msg ctx m reqId).outcome = .error e) :
    (processMessage P s r msg ctx m reqId).state.drafts = s.drafts ∧
    (processMessage P s r msg ctx m reqId).state.requests = s.requests ∧
    (processMessage P s r msg ctx m reqId).uuidConsumed = true := by
  revert herr
  cases hb : (m != 0) with
  | false =>
    unfold processMessage
    simp only [hb, Bool.false_and, Bool.false_eq_true, if_false]
    split
    · intro herr; exact absurd herr (by simp)
    · split
      · intro herr; exact absurd herr (by simp)
      · split
        · intro _
          exact ⟨rfl, rfl, rfl⟩
        · next s2 hok =>
          split
          · intro herr; exact absurd herr (by simp)
          · intro herr; exact absurd herr (by simp)
  | true =>
    unfold processMessage
    simp only [hb, Bool.true_and, if_true]
    split
    · intro herr; exact absurd herr (by simp)
    · split
      · intro herr; exact absurd herr (by simp)
      · split
        · intro herr; exact absurd herr (by simp)
        · split
          · intro _
            exact ⟨markMessageSeen_drafts s m r, markMessageSeen_requests s m r,
              rfl⟩
          · next s2 hok =>
            split
            · intro herr; exact absurd herr (by simp)
            · intro herr; exact absurd herr (by simp)

/-- C5: every exception site in one reservation's poll-cycle processing is
absorbed at that reservation's boundary and the loop continues through the
rest of the cycle, cleaner-response poll included.  One case per raise site
the claim names:
1. the metadata fetch raises (or the reservation is unknown): the cycle is
   identical to one without the failing reservation;
2. the message fetch raises after the metadata fetch succeeded: the cycle
   continues with only the metadata cache updated — the ledger is untouched,
   so every later reservation's drafts are created exactly as before;
3. the pipeline call itself raises (the `save_request` insert): the cycle
   continues from the partially-written ledger, which holds no new drafts
   and no new requests.
In each case the conclusion exhibits the remaining cycle as
`cleanerStep (processAllReservations … rest)`: the remaining reservations
are processed and `process_cleaner_responses` still runs. -/
theorem failing_reservation_isolated (G : Gateway) (P : Ports)
    (st : DaemonState) (r1 : Nat) (rest : List Nat) :
    (∀ e, getReservationCached G st.cache r1 = .error e →
      cleanerStep G P (processAllReservations G P st (r1 :: rest)) =
        cleanerStep G P (processAllReservations G P st rest)) ∧
    (∀ e info cache1,
      getReservationCached G st.cache r1 = .ok (info, cache1) →
      G.getMessages r1 = .error e →
      cleanerStep G P (processAllReservations G P st (r1 :: rest)) =
        cleanerStep G P (processAllReservations G P
          { mem := st.mem, cache := cache1, uuidCounter := st.uuidCounter }
          rest)) ∧
    (∀ e info cache1 msgs latest out,
      getReservationCached G st.cache r1 = .ok (info, cache1) →
      G.getMessages r1 = .ok msgs →
      (msgs.filter (fun m => m.msgType == 1 &&
        m.body.data.any (fun c => !c.isWhitespace))).getLast? = some latest →
      out = processMessage P st.mem r1 latest.body
        { reservationId := r1
          guestName := info.guestName
          propertyName := info.apartmentName
          arrivalDate := info.arrival
          departureDate := info.departure
          defaultCheckinTime := "17:00"
          defaultCheckoutTime := "11:00"
          previousMessages := ((msgs.filter (fun m => m.msgType == 1 &&
            m.body.data.any (fun c => !c.isWhitespace))).dropLast).map
              (fun m => m.body) }
        latest.messageId (uuidOf st.uuidCounter) →
      out.outcome = .error e →
      (cleanerStep G P (processAllReservations G P st (r1 :: rest)) =
        cleanerStep G P (processAllReservations G P
          { mem := out.state, cache := cache1,
            uuidCounter := st.uuidCounter + 1 } rest) ∧
       out.state.drafts = st.mem.drafts ∧
       out.state.requests = st.mem.requests)) := by
  refine ⟨?_, ?_, ?_⟩
  · intro e hf
    have hone : processOneReservation G P st r1 = st := by
      unfold processOneReservation
      rw [hf]
    show cleanerStep G P (processAllReservations G P
      (processOneReservation G P st r1) rest) = _
    rw [hone]
  · intro e info cache1 hf hm
    have hone : processOneReservation G P st r1 =
        { mem := st.mem, cache := cache1, uuidCounter := st.uuidCounter } := by
      unfold processOneReservation
      simp only [hf]
      simp only [hm]
    show cleanerStep G P (processAllReservations G P
      (processOneReservation G P st r1) rest) = _
    rw [hone]
  · intro e info cache1 msgs latest out hf hm hlast hout herr
    rw [hout] at herr
    have heff := processMessage_error_effects P st.mem r1 latest.body _
      latest.messageId (uuidOf st.uuidCounter) e herr
    have huuid : out.uuidConsumed = true := by
      rw [hout]; exact heff.2.2
    have hone : processOneReservation G P st r1 =
        { mem := out.state, cache := cache1,
          uuidCounter := st.uuidCounter + 1 } := by
      unfold processOneReservation
      simp only [hf]
      simp only [hm]
      simp only [hlast]
      rw [← hout, huuid]
      rfl
    refine ⟨?_, ?_, ?_⟩
    · show cleanerStep G P (processAllReservations G P
        (processOneReservation G P st r1) rest) = _
      rw [hone]
    · rw [hout]; exact heff.1
    · rw [hout]; exact heff.2.1

/-- A gateway whose reservation 1 raises on metadata fetch while
reservation 2 works, used for the C5 witness's case 1. -/
def demoGateway : Gateway := {
  getThreads := fun _ => .ok ⟨[], false⟩
  getReservation := fun r =>
    if r = 1 then .error "boom"
    else .ok (some ⟨r, "Guest", "Apt", "2026-01-01", "2026-01-05"⟩)
  getMessages := fun _ =>
    .ok [⟨11, "subject", "Puis-je arriver vers 12h ?", 1⟩]
  pollResponses := .ok [] }

/-- The initial daemon state of the C5 witness (fresh ledger, empty cache). -/
def demoState : DaemonState := { mem := emptyMem }

/-- A gateway whose message fetch always raises, for the C5 witness's
case 2. -/
def demoGatewayMsg : Gateway := {
  getThreads := fun _ => .ok ⟨[], false⟩
  getReservation := fun r =>
    .ok (some ⟨r, "Guest", "Apt", "2026-01-01", "2026-01-05"⟩)
  getMessages := fun _ => .error "net down"
  pollResponses := .ok [] }

/-- A gateway whose fetches succeed, for the C5 witness's case 3 (the raise
happens inside the pipeline call instead). -/
def demoGatewayPipe : Gateway := {
  getThreads := fun _ => .ok ⟨[], false⟩
  getReservation := fun r =>
    .ok (some ⟨r, "Guest", "Apt", "2026-01-01", "2026-01-05"⟩)
  getMessages := fun _ => .ok [⟨21, "s", "hello", 1⟩]
  pollResponses := .ok [] }

/-- A daemon state whose ledger already holds a request under the id the
`uuid4` stand-in will produce next, so the pipeline's `save_request` insert
raises the UNIQUE violation — the C5 witness's case 3. -/
def demoStateDup : DaemonState := {
  mem := { requests := [{
    reservationId := 999
    intent := .late_checkout
    status := "pending_acknowledgment"
    requestId := "uuid-0"
    guestMessage := ""
    guestName := ""
    propertyName := ""
    originalTime := ""
    requestedTime := ""
    relevantDate := "" }] } }

/-- The conversation context the daemon builds for the C5 case-3 witness. -/
def demoPipeCtx : ConversationContext := {
  reservationId := 3
  guestName := "Guest"
  propertyName := "Apt"
  arrivalDate := "2026-01-01"
  departureDate := "2026-01-05"
  defaultCheckinTime := "17:00"
  defaultCheckoutTime := "11:00"
  previousMessages := [] }

/-- The raising pipeline call of the C5 case-3 witness. -/
def demoOut : PMOut :=
  processMessage fixedPorts demoStateDup.mem 3 "hello" demoPipeCtx 21
    (uuidOf demoStateDup.uuidCounter)

/-- C5 witness, one concrete instance per raise site: (1) reservation 1's
metadata fetch raises and the cycle over `[1, 2]` equals the cycle over
`[2]`, which does create reservation 2's two drafts; (2) a message fetch
raises after the metadata fetch succeeded and the cycle continues with only
the cache updated; (3) the pipeline call raises on the duplicate request id
and the cycle continues from a ledger with unchanged drafts and requests. -/
theorem failing_reservation_isolated_witness :
    (getReservationCached demoGateway demoState.cache 1 = .error "boom" ∧
     cleanerStep demoGateway fixedPorts
        (processAllReservations demoGateway fixedPorts demoState [1, 2]) =
      cleanerStep demoGateway fixedPorts
        (processAllReservations demoGateway fixedPorts demoState [2]) ∧
     ((cleanerStep demoGateway fixedPorts (processAllReservations demoGateway
        fixedPorts demoState [2])).mem.drafts.map
          (fun d => (d.reservationId, d.step))) =
      [(2, Step.acknowledgment), (2, Step.cleaner_query)]) ∧
    (demoGatewayMsg.getMessages 4 = .error "net down" ∧
     cleanerStep demoGatewayMsg fixedPorts
        (processAllReservations demoGatewayMsg fixedPorts demoState [4]) =
      cleanerStep demoGatewayMsg fixedPorts
        (processAllReservations demoGatewayMsg fixedPorts
          { mem := demoState.mem
            cache := [(4, ⟨4, "Guest", "Apt", "2026-01-01", "2026-01-05"⟩)]
            uuidCounter := demoState.uuidCounter } [])) ∧
    (demoOut.outcome =
      .error "UNIQUE constraint failed: requests.request_id" ∧
     cleanerStep demoGatewayPipe fixedPorts
        (processAllReservations demoGatewayPipe fixedPorts demoStateDup [3]) =
      cleanerStep demoGatewayPipe fixedPorts
        (processAllReservations demoGatewayPipe fixedPorts
          { mem := demoOut.state
            cache := [(3, ⟨3, "Guest", "Apt", "2026-01-01", "2026-01-05"⟩)]
            uuidCounter := demoStateDup.uuidCounter + 1 } []) ∧
     demoOut.state.drafts = demoStateDup.mem.drafts ∧
     demoOut.state.requests = demoStateDup.mem.requests) :=
  ⟨⟨rfl,
    (failing_reservation_isolated demoGateway fixedPorts demoState 1 [2]).1
      "boom" rfl,
    by decide⟩,
   ⟨rfl,
    (failing_reservation_isolated demoGatewayMsg fixedPorts demoState 4
        []).2.1 "net down"
      ⟨4, "Guest", "Apt", "2026-01-01", "2026-01-05"⟩
      [(4, ⟨4, "Guest", "Apt", "2026-01-01", "2026-01-05"⟩)] rfl rfl⟩,
   ⟨rfl,
    (failing_reservation_isolated demoGatewayPipe fixedPorts demoStateDup 3
        []).2.2 "UNIQUE constraint failed: requests.request_id"
      ⟨3, "Guest", "Apt", "2026-01-01", "2026-01-05"⟩
      [(3, ⟨3, "Guest", "Apt", "2026-01-01", "2026-01-05"⟩)]
      [⟨21, "s", "hello", 1⟩] ⟨21, "s", "hello", 1⟩ demoOut rfl rfl rfl rfl
      rfl⟩⟩

end CheckinAutomation
